import Mathlib

/-!
Shallow embedding of the assist-by/abready service registry.

The repository contains three evolutions of the same server:
* `part_000` — in-memory map, no validation (earliest variant);
* `main.go` lines 1-164 — in-memory map guarded by a RWMutex, with
  `validateService` (variant 2, namespace `InMem` below);
* `main.go` lines 165-489 — Redis-backed store with a Kafka ingestion
  consumer and Redis `WATCH` optimistic transactions (variant 3,
  namespace `RedisReg` below).

Timestamps are modelled as `Nat` (`time.Now()` becomes an explicit `now`
argument).  The Redis store is modelled as a partial map from keys to
service records together with a per-key modification counter `ver`: every
`SET`/`DEL` on a key bumps its counter, and a `WATCH`-guarded `EXEC`
succeeds exactly when the counter still has the value observed at watch
time.  This is the standard semantics of Redis `WATCH`/`MULTI`/`EXEC` on
a single key.  The `all:services` index set is a duplicate-free list;
`SADD`/`SREM` are membership insert / filter.  JSON marshalling of a
record is value-preserving, so store values are the records themselves.
Gin handler outcomes are the `Resp` codes the handlers can emit.
-/

/-- A service record (`lib.Service`): name, address, last-heartbeat time. -/
structure Service where
  name : String
  address : String
  lastHeartbeat : Nat
  deriving DecidableEq, Repr

/-- HTTP outcomes the handlers emit (200, 400, 404, 409, 500). -/
inductive Resp where
  | ok
  | badRequest
  | notFound
  | conflict
  | serverError
  deriving DecidableEq, Repr

/-- Validation function `validateService` (identical in variants 2 and 3):
returns the error message for an empty name or address, `none` when valid. -/
def validateService (s : Service) : Option String :=
  if s.name = "" then some "service name cannot be empty"
  else if s.address = "" then some "service Address cannot be empty"
  else none

namespace InMem

/-- State of the in-memory variant: the `services` map. -/
structure State where
  services : String → Option Service

/-- Variant-2 `registerService`: validate (with an early return on failure),
stamp the heartbeat, store under the payload's own name. -/
def registerService (st : State) (payload : Service) (now : Nat) : Resp × State :=
  match validateService payload with
  | some _ => (Resp.badRequest, st)
  | none =>
      (Resp.ok,
       ⟨fun k => if k = payload.name then some { payload with lastHeartbeat := now }
                 else st.services k⟩)

/-- Variant-2 `updateService`.  Faithful to the source: when validation
fails the handler emits a 400 response but does NOT return (the `return`
statement is missing at line 67), so execution falls through to the
existence check and the write.  The handler therefore emits a list of
responses; the client observes the first one (gin writes the status on
the first `c.JSON`). -/
def updateService (st : State) (name : String) (payload : Service) (now : Nat) :
    List Resp × State :=
  let vresp : List Resp :=
    match validateService payload with
    | some _ => [Resp.badRequest]
    | none => []
  match st.services name with
  | none => (vresp ++ [Resp.notFound], st)
  | some _ =>
      (vresp ++ [Resp.ok],
       ⟨fun k => if k = name then some { payload with lastHeartbeat := now }
                 else st.services k⟩)

/-- Variant-2 `healthCheck`: refresh `LastHeartbeat` of an existing record. -/
def healthCheck (st : State) (name : String) (now : Nat) : Resp × State :=
  match st.services name with
  | none => (Resp.notFound, st)
  | some s =>
      (Resp.ok,
       ⟨fun k => if k = name then some { s with lastHeartbeat := now }
                 else st.services k⟩)

end InMem

namespace RedisReg

/-- State of the Redis-backed variant: record values per key, the
`all:services` index set, and a per-key modification counter used to give
`WATCH`/`EXEC` its semantics (any committed write to a key bumps the
counter, so an `EXEC` whose watched counter moved fails). -/
structure State where
  records : String → Option Service
  index : List String
  ver : String → Nat

/-- Redis `SET key value`: store the value and bump the key's counter. -/
def setKey (st : State) (k : String) (v : Service) : State :=
  { records := fun x => if x = k then some v else st.records x
    index := st.index
    ver := fun x => if x = k then st.ver x + 1 else st.ver x }

/-- Redis `DEL key`: drop the value and bump the key's counter. -/
def delKey (st : State) (k : String) : State :=
  { records := fun x => if x = k then none else st.records x
    index := st.index
    ver := fun x => if x = k then st.ver x + 1 else st.ver x }

/-- Redis `SADD all:services k`. -/
def saddIndex (st : State) (k : String) : State :=
  { st with index := if k ∈ st.index then st.index else st.index ++ [k] }

/-- Redis `SREM all:services k`. -/
def sremIndex (st : State) (k : String) : State :=
  { st with index := st.index.filter (fun x => decide (x ≠ k)) }

/-- One attempt of variant-3 `updateService`'s body: the payload is
validated before the `WATCH`; inside the transaction the key's existence
is checked against the state seen at watch/read time (`watchSt`), and the
`EXEC` of the pipelined `SET` runs against the state current at commit
time (`commitSt`) — it succeeds only if the watched key's counter is
unchanged, otherwise Redis reports `TxFailedErr`, surfaced as 409. -/
def updateAttempt (watchSt commitSt : State) (name : String) (payload : Service)
    (now : Nat) : Resp × State :=
  match validateService payload with
  | some _ => (Resp.badRequest, commitSt)
  | none =>
      match watchSt.records name with
      | none => (Resp.notFound, commitSt)
      | some _ =>
          if commitSt.ver name = watchSt.ver name then
            (Resp.ok, setKey commitSt name { payload with lastHeartbeat := now })
          else (Resp.conflict, commitSt)

/-- Variant-3 `updateService` run without interference: watch-time and
commit-time states coincide. -/
def updateService (st : State) (name : String) (payload : Service) (now : Nat) :
    Resp × State :=
  updateAttempt st st name payload now

/-- Two `updateService` calls racing on the same name: both transactions
watch (and read) the same initial state `st`; the first call's `EXEC`
then runs against `st`, and the second call's `EXEC` runs against the
state the first one left.  Returns (first response, second response,
final state). -/
def raceUpdate (st : State) (name : String) (p q : Service) (t1 t2 : Nat) :
    Resp × Resp × State :=
  let a := updateAttempt st st name p t1
  let b := updateAttempt st a.2 name q t2
  (a.1, b.1, b.2)

/-- One attempt of variant-3 `healthCheck`'s body: read the record at
watch time, refresh only `LastHeartbeat`, commit under the same
`WATCH`/`EXEC` discipline. -/
def healthCheckAttempt (watchSt commitSt : State) (name : String) (now : Nat) :
    Resp × State :=
  match watchSt.records name with
  | none => (Resp.notFound, commitSt)
  | some s =>
      if commitSt.ver name = watchSt.ver name then
        (Resp.ok, setKey commitSt name { s with lastHeartbeat := now })
      else (Resp.conflict, commitSt)

/-- Variant-3 `healthCheck` run without interference. -/
def healthCheck (st : State) (name : String) (now : Nat) : Resp × State :=
  healthCheckAttempt st st name now

/-- Store mutations `deleteService` issues, in execution order. -/
inductive Op where
  | del (k : String)
  | srem (k : String)
  deriving DecidableEq, Repr

/-- Variant-3 `deleteService`: check existence, `DEL` the record key, then
`SREM` the name from the index set.  `sremFails` injects a store failure
on the `SREM` step (the `DEL` has already committed at that point); the
handler then answers 500.  Also returns the list of store mutations that
committed, in order. -/
def deleteService (st : State) (name : String) (sremFails : Bool) :
    Resp × State × List Op :=
  match st.records name with
  | none => (Resp.notFound, st, [])
  | some _ =>
      let st1 := delKey st name
      if sremFails then (Resp.serverError, st1, [Op.del name])
      else (Resp.ok, sremIndex st1 name, [Op.del name, Op.srem name])

/-- Variant-3 `getService`: a plain `GET` of the record key; the index
set is never consulted. -/
def getService (st : State) (name : String) : Resp × Option Service :=
  match st.records name with
  | none => (Resp.notFound, none)
  | some s => (Resp.ok, some s)

/-- Variant-3 `listServices`: read the index set, then `GET` each member;
members whose record read fails are skipped (logged), not surfaced as an
error. -/
def listServices (st : State) : List (String × Service) :=
  st.index.filterMap fun n => (st.records n).map fun s => (n, s)

/-- Outcome of processing one Kafka message in variant-3 `registerService`
(the consumer loop body): the resulting store state, which store writes
were attempted, and whether the loop goes on to the next message. -/
structure ConsumeResult where
  st : State
  setAttempted : Bool
  saddAttempted : Bool
  continued : Bool

/-- One iteration of variant-3 `registerService` (the Kafka consumer
loop).  `msg` is the deserialized payload (`none` models an unmarshal
error, which is logged and skipped).  Faithful to the source: the
consumer performs NO validation; it stamps the heartbeat, issues
`SET service.Name serviceJSON` and, only if that succeeded, issues
`SADD all:services service.Name`.  `setFails` / `saddFails` inject store
failures on the respective writes; every failure is logged and the loop
continues. -/
def registerServiceStep (st : State) (msg : Option Service) (now : Nat)
    (setFails saddFails : Bool) : ConsumeResult :=
  match msg with
  | none => ⟨st, false, false, true⟩
  | some service =>
      let s := { service with lastHeartbeat := now }
      if setFails then ⟨st, true, false, true⟩
      else
        let st1 := setKey st s.name s
        if saddFails then ⟨st1, true, true, true⟩
        else ⟨saddIndex st1 s.name, true, true, true⟩

end RedisReg

/-- A sample registered service. -/
def svcA : Service := ⟨"svc-a", "10.0.0.1:9000", 0⟩

/-- Redis-variant state holding exactly `svc-a`, with a consistent index. -/
def st0 : RedisReg.State :=
  ⟨fun k => if k = "svc-a" then some svcA else none, ["svc-a"], fun _ => 0⟩

/-- Redis-variant state holding `svc-a` as a record but with an empty
index set (the record is present under its key, absent from `all:services`). -/
def stOrphan : RedisReg.State :=
  ⟨fun k => if k = "svc-a" then some svcA else none, [], fun _ => 0⟩

/-- In-memory-variant state holding exactly `svc-a`. -/
def mem0 : InMem.State :=
  ⟨fun k => if k = "svc-a" then some svcA else none⟩

/-- Names returned by `listServices` are exactly the index members whose
record key currently holds a value (a `GET` that fails is skipped). -/
theorem mem_map_fst_listServices (st : RedisReg.State) (n : String) :
    n ∈ (RedisReg.listServices st).map Prod.fst ↔
      n ∈ st.index ∧ ∃ s, st.records n = some s := by
  simp only [RedisReg.listServices, List.mem_map, List.mem_filterMap,
    Option.map_eq_some']
  constructor
  · rintro ⟨p, ⟨a, ha, s, hs, rfl⟩, rfl⟩
    exact ⟨ha, s, hs⟩
  · rintro ⟨ha, s, hs⟩
    exact ⟨(n, s), ⟨n, ha, s, hs, rfl⟩, rfl⟩

/-- C1: for an existing name and two racing `updateService` calls with
different valid payloads, both watching the key before either commits,
exactly one commits (the first to reach `EXEC`) and the other fails with
`TransactionConflict` (409); the final stored value equals the winner's
payload with the stamped heartbeat, never a merge of the two. -/
theorem raceUpdate_one_winner (st : RedisReg.State) (name : String) (p q : Service)
    (t1 t2 : Nat) (s : Service) (hex : st.records name = some s)
    (hp : validateService p = none) (hq : validateService q = none)
    (_hpq : p ≠ q) :
    (RedisReg.raceUpdate st name p q t1 t2).1 = Resp.ok ∧
    (RedisReg.raceUpdate st name p q t1 t2).2.1 = Resp.conflict ∧
    (RedisReg.raceUpdate st name p q t1 t2).2.2.records name
      = some { p with lastHeartbeat := t1 } := by
  simp [RedisReg.raceUpdate, RedisReg.updateAttempt, hex, hp, hq, RedisReg.setKey]

/-- C1 witness: the race at a concrete store with two concrete payloads. -/
theorem raceUpdate_one_winner_witness :
    (RedisReg.raceUpdate st0 "svc-a" ⟨"svc-a", "10.0.0.2:9000", 0⟩
        ⟨"svc-a", "10.0.0.3:9000", 0⟩ 1 2).1 = Resp.ok ∧
    (RedisReg.raceUpdate st0 "svc-a" ⟨"svc-a", "10.0.0.2:9000", 0⟩
        ⟨"svc-a", "10.0.0.3:9000", 0⟩ 1 2).2.1 = Resp.conflict ∧
    (RedisReg.raceUpdate st0 "svc-a" ⟨"svc-a", "10.0.0.2:9000", 0⟩
        ⟨"svc-a", "10.0.0.3:9000", 0⟩ 1 2).2.2.records "svc-a"
      = some ⟨"svc-a", "10.0.0.2:9000", 1⟩ := by
  exact raceUpdate_one_winner st0 "svc-a" ⟨"svc-a", "10.0.0.2:9000", 0⟩
    ⟨"svc-a", "10.0.0.3:9000", 0⟩ 1 2 svcA rfl rfl rfl (by decide)

/-- C5: for a key absent from the store, both operations routed through
the watch transaction — `updateService` (with a payload that passes the
validation gate in front of the transaction) and `healthCheck` — abort
with `NotFound` (404) and leave the state untouched, so the key remains
absent. -/
theorem transactional_ops_absent_notFound (st : RedisReg.State) (name : String)
    (payload : Service) (now : Nat) (habs : st.records name = none)
    (hval : validateService payload = none) :
    RedisReg.updateService st name payload now = (Resp.notFound, st) ∧
    RedisReg.healthCheck st name now = (Resp.notFound, st) := by
  simp [RedisReg.updateService, RedisReg.updateAttempt, RedisReg.healthCheck,
    RedisReg.healthCheckAttempt, habs, hval]

/-- C5 witness: update and heartbeat on the absent key `svc-b`. -/
theorem transactional_ops_absent_notFound_witness :
    RedisReg.updateService st0 "svc-b" ⟨"svc-b", "10.0.0.9:9000", 0⟩ 4
      = (Resp.notFound, st0) ∧
    RedisReg.healthCheck st0 "svc-b" 4 = (Resp.notFound, st0) :=
  transactional_ops_absent_notFound st0 "svc-b" ⟨"svc-b", "10.0.0.9:9000", 0⟩ 4
    rfl rfl

/-- C8: a successful heartbeat on an existing name refreshes only the
record's lastHeartbeat: the stored record afterwards has the same name
and address as before, with the heartbeat set to the stamp time. -/
theorem healthCheck_refreshes_only_heartbeat (st : RedisReg.State) (name : String)
    (s : Service) (now : Nat) (hex : st.records name = some s) :
    (RedisReg.healthCheck st name now).1 = Resp.ok ∧
    (RedisReg.healthCheck st name now).2.records name
      = some ⟨s.name, s.address, now⟩ := by
  simp [RedisReg.healthCheck, RedisReg.healthCheckAttempt, hex, RedisReg.setKey]

/-- C8 witness: heartbeat of `svc-a` at time 9. -/
theorem healthCheck_refreshes_only_heartbeat_witness :
    (RedisReg.healthCheck st0 "svc-a" 9).1 = Resp.ok ∧
    (RedisReg.healthCheck st0 "svc-a" 9).2.records "svc-a"
      = some ⟨"svc-a", "10.0.0.1:9000", 9⟩ :=
  healthCheck_refreshes_only_heartbeat st0 "svc-a" svcA 9 rfl

/-- C4 counterexample: updating key `svc-a` with a payload whose name
field is `evil` succeeds, and the record stored under key `svc-a` then
carries name field `evil`, not `svc-a` — the stored record's name field
does not still identify the service as the path-parameter name. -/
theorem updateService_stores_payload_name :
    (RedisReg.updateService st0 "svc-a" ⟨"evil", "10.0.0.2:9000", 0⟩ 5).1
      = Resp.ok ∧
    (RedisReg.updateService st0 "svc-a" ⟨"evil", "10.0.0.2:9000", 0⟩ 5).2.records
      "svc-a" = some ⟨"evil", "10.0.0.2:9000", 5⟩ ∧
    ("evil" : String) ≠ "svc-a" :=
  ⟨rfl, rfl, by decide⟩

/-- C4 amended: the path-parameter key is authoritative for where the
record is stored — a successful update writes the payload (heartbeat
stamped) under that key and changes no other key, so no record appears
under the payload's own name field; but the name field inside the stored
record is taken verbatim from the payload and may differ from the key. -/
theorem updateService_key_authoritative (st : RedisReg.State) (name : String)
    (payload : Service) (now : Nat) (s : Service) (hex : st.records name = some s)
    (hval : validateService payload = none) :
    (RedisReg.updateService st name payload now).1 = Resp.ok ∧
    (RedisReg.updateService st name payload now).2.records name
      = some { payload with lastHeartbeat := now } ∧
    ∀ k, k ≠ name → (RedisReg.updateService st name payload now).2.records k
      = st.records k := by
  refine ⟨?_, ?_, ?_⟩ <;>
    simp [RedisReg.updateService, RedisReg.updateAttempt, hex, hval, RedisReg.setKey]
  intro k hk
  simp [hk]

/-- C4 amended witness: updating `svc-a` with payload name `evil` leaves
every other key — in particular `evil` — unchanged. -/
theorem updateService_key_authoritative_witness :
    (RedisReg.updateService st0 "svc-a" ⟨"evil", "10.0.0.2:9000", 0⟩ 5).1
      = Resp.ok ∧
    (RedisReg.updateService st0 "svc-a" ⟨"evil", "10.0.0.2:9000", 0⟩ 5).2.records
      "svc-a" = some ⟨"evil", "10.0.0.2:9000", 5⟩ ∧
    ∀ k, k ≠ "svc-a" →
      (RedisReg.updateService st0 "svc-a" ⟨"evil", "10.0.0.2:9000", 0⟩ 5).2.records
        k = st0.records k :=
  updateService_key_authoritative st0 "svc-a" ⟨"evil", "10.0.0.2:9000", 0⟩ 5 svcA
    rfl rfl

/-- C7: deleting an existing name issues the record `DEL` strictly before
the index `SREM` (the committed-mutation trace is `[del, srem]`), and
after a successful delete `getService` answers `NotFound` and the name is
absent from the names `listServices` returns. -/
theorem deleteService_del_before_srem (st : RedisReg.State) (name : String)
    (s : Service) (hex : st.records name = some s) :
    (RedisReg.deleteService st name false).1 = Resp.ok ∧
    (RedisReg.deleteService st name false).2.2
      = [RedisReg.Op.del name, RedisReg.Op.srem name] ∧
    (RedisReg.getService (RedisReg.deleteService st name false).2.1 name).1
      = Resp.notFound ∧
    name ∉ (RedisReg.listServices (RedisReg.deleteService st name false).2.1).map
      Prod.fst := by
  have hrec : (RedisReg.deleteService st name false).2.1.records name = none := by
    simp [RedisReg.deleteService, hex, RedisReg.sremIndex, RedisReg.delKey]
  refine ⟨?_, ?_, ?_, fun h => ?_⟩
  · simp [RedisReg.deleteService, hex]
  · simp [RedisReg.deleteService, hex]
  · simp [RedisReg.getService, hrec]
  · rcases (mem_map_fst_listServices _ name).mp h with ⟨-, t, ht⟩
    rw [hrec] at ht
    cases ht

/-- C7 witness: deleting `svc-a` from the consistent sample store. -/
theorem deleteService_del_before_srem_witness :
    (RedisReg.deleteService st0 "svc-a" false).1 = Resp.ok ∧
    (RedisReg.deleteService st0 "svc-a" false).2.2
      = [RedisReg.Op.del "svc-a", RedisReg.Op.srem "svc-a"] ∧
    (RedisReg.getService (RedisReg.deleteService st0 "svc-a" false).2.1 "svc-a").1
      = Resp.notFound ∧
    "svc-a" ∉ (RedisReg.listServices
      (RedisReg.deleteService st0 "svc-a" false).2.1).map Prod.fst :=
  deleteService_del_before_srem st0 "svc-a" svcA rfl

/-- C9: when the index `SREM` fails after the record `DEL` has already
committed, `deleteService` answers 500 even though the record is gone
(`records name = none`, a state change despite the reported failure) and
the name is left dangling in the index set. -/
theorem deleteService_srem_failure_dangling (st : RedisReg.State) (name : String)
    (s : Service) (hex : st.records name = some s) (hidx : name ∈ st.index) :
    (RedisReg.deleteService st name true).1 = Resp.serverError ∧
    (RedisReg.deleteService st name true).2.1.records name = none ∧
    name ∈ (RedisReg.deleteService st name true).2.1.index := by
  simp [RedisReg.deleteService, hex, RedisReg.delKey, hidx]

/-- C9 witness: deleting `svc-a` when the `SREM` step fails. -/
theorem deleteService_srem_failure_dangling_witness :
    (RedisReg.deleteService st0 "svc-a" true).1 = Resp.serverError ∧
    (RedisReg.deleteService st0 "svc-a" true).2.1.records "svc-a" = none ∧
    "svc-a" ∈ (RedisReg.deleteService st0 "svc-a" true).2.1.index :=
  deleteService_srem_failure_dangling st0 "svc-a" svcA rfl (by decide)

/-- C10: `getService` reads the record key directly and never consults
the index set — for a record present under its key but absent from
`all:services`, `getService` succeeds while `listServices` omits the
name, so the set of names `getService` serves can strictly exceed the
names `listServices` returns. -/
theorem getService_ignores_index (st : RedisReg.State) (name : String)
    (s : Service) (hex : st.records name = some s) (hidx : name ∉ st.index) :
    RedisReg.getService st name = (Resp.ok, some s) ∧
    name ∉ (RedisReg.listServices st).map Prod.fst := by
  refine ⟨by simp [RedisReg.getService, hex], fun h => ?_⟩
  exact hidx ((mem_map_fst_listServices st name).mp h).1

/-- C10 witness: `svc-a` present as a record but missing from the index. -/
theorem getService_ignores_index_witness :
    RedisReg.getService stOrphan "svc-a" = (Resp.ok, some svcA) ∧
    "svc-a" ∉ (RedisReg.listServices stOrphan).map Prod.fst :=
  getService_ignores_index stOrphan "svc-a" svcA rfl (by decide)

/-- C2 (failing-input evidence): in the in-memory variant, an update of
the existing name `svc-a` with an empty address is answered 400 (the
first response written is `badRequest`, and `registerService` on the
same payload correctly rejects with 400 and leaves the store untouched),
yet — because the handler misses the return after the validation
failure — the invalid payload is still written: the stored record for
`svc-a` changes from `svcA` to one with an empty address. -/
theorem updateService_v2_validation_bypass :
    InMem.registerService mem0 ⟨"svc-a", "", 0⟩ 5 = (Resp.badRequest, mem0) ∧
    (InMem.updateService mem0 "svc-a" ⟨"svc-a", "", 0⟩ 5).1.head?
      = some Resp.badRequest ∧
    (InMem.updateService mem0 "svc-a" ⟨"svc-a", "", 0⟩ 5).2.services "svc-a"
      = some ⟨"svc-a", "", 5⟩ ∧
    mem0.services "svc-a" = some svcA ∧
    svcA ≠ ⟨"svc-a", "", 5⟩ :=
  ⟨rfl, rfl, rfl, rfl, by decide⟩

/-- C3 (failing-input evidence): the Kafka consumer performs no
validation — a deserialized payload with an empty address (which
`validateService` rejects) is written into the store and added to the
index set rather than being skipped. -/
theorem registerServiceStep_no_validation :
    validateService ⟨"svc-x", "", 7⟩ ≠ none ∧
    (RedisReg.registerServiceStep st0 (some ⟨"svc-x", "", 0⟩) 7 false
      false).st.records "svc-x" = some ⟨"svc-x", "", 7⟩ ∧
    "svc-x" ∈ (RedisReg.registerServiceStep st0 (some ⟨"svc-x", "", 0⟩) 7 false
      false).st.index :=
  ⟨by decide, rfl, by decide⟩

/-- C6 counterexample: when the record `SET` fails, the consumer logs and
moves to the next message WITHOUT attempting the index `SADD` — the
record write was attempted and failed, and the index-set addition was
not attempted. -/
theorem registerServiceStep_skips_sadd_on_set_failure :
    (RedisReg.registerServiceStep st0 (some ⟨"svc-b", "10.0.0.3:9000", 0⟩) 3 true
      false).setAttempted = true ∧
    (RedisReg.registerServiceStep st0 (some ⟨"svc-b", "10.0.0.3:9000", 0⟩) 3 true
      false).saddAttempted = false :=
  ⟨rfl, rfl⟩

/-- C6 amended: the consumption loop always continues to the next message
whatever fails (unmarshal error, record-write failure, index-add
failure), and the index-set addition is attempted exactly when the
message deserialized and the record write succeeded — a record-write
failure skips the index addition for that message. -/
theorem registerServiceStep_continues (st : RedisReg.State) (msg : Option Service)
    (now : Nat) (sf af : Bool) :
    (RedisReg.registerServiceStep st msg now sf af).continued = true ∧
    (RedisReg.registerServiceStep st msg now sf af).saddAttempted
      = (msg.isSome && !sf) := by
  cases msg <;> cases sf <;> cases af <;> simp [RedisReg.registerServiceStep]
